import Mathlib

/-!
Verification of the VICAPTCHA challenge lifecycle engine (`pycap.py`, `server.py`):
a shallow embedding of the PoW provider, the image-grid sampler, the in-memory
challenge store and the verify/check endpoints, together with proofs of the
specification's testable properties.
-/

set_option maxRecDepth 100000

namespace VICaptcha

/-! ### SHA-256 (embeds `hashlib.sha256(s.encode("utf-8")).hexdigest()` used by `PyCap._hash`) -/

def M32 : Nat := 4294967296

def rotr32 (n x : Nat) : Nat := ((x >>> n) ||| (x <<< (32 - n))) % M32

def charUtf8 (c : Char) : List Nat :=
  let n := c.toNat
  if n < 128 then [n]
  else if n < 2048 then [192 ||| (n >>> 6), 128 ||| (n &&& 63)]
  else if n < 65536 then
    [224 ||| (n >>> 12), 128 ||| ((n >>> 6) &&& 63), 128 ||| (n &&& 63)]
  else
    [240 ||| (n >>> 18), 128 ||| ((n >>> 12) &&& 63), 128 ||| ((n >>> 6) &&& 63), 128 ||| (n &&& 63)]

def utf8Bytes (s : String) : List Nat := s.data.flatMap charUtf8

def padBytes (m : List Nat) : List Nat :=
  let L := m.length
  let z := (119 - L % 64) % 64
  m ++ [128] ++ List.replicate z 0 ++ (List.range 8).map (fun i => ((8 * L) >>> (8 * (7 - i))) % 256)

def bytesToWords : List Nat → List Nat
  | b0 :: b1 :: b2 :: b3 :: rest => (((b0 * 256 + b1) * 256 + b2) * 256 + b3) :: bytesToWords rest
  | _ => []

def chunksGo : Nat → List Nat → List (List Nat)
  | 0, _ => []
  | _, [] => []
  | fuel + 1, l => l.take 64 :: chunksGo fuel (l.drop 64)

def chunks64 (l : List Nat) : List (List Nat) := chunksGo (l.length + 1) l

def ssig0 (x : Nat) : Nat := (rotr32 7 x) ^^^ (rotr32 18 x) ^^^ (x >>> 3)

def ssig1 (x : Nat) : Nat := (rotr32 17 x) ^^^ (rotr32 19 x) ^^^ (x >>> 10)

def bsig0 (x : Nat) : Nat := (rotr32 2 x) ^^^ (rotr32 13 x) ^^^ (rotr32 22 x)

def bsig1 (x : Nat) : Nat := (rotr32 6 x) ^^^ (rotr32 11 x) ^^^ (rotr32 25 x)

def shaK : List Nat :=
  [1116352408, 1899447441, 3049323471, 3921009573, 961987163, 1508970993,
   2453635748, 2870763221, 3624381080, 310598401, 607225278, 1426881987,
   1925078388, 2162078206, 2614888103, 3248222580, 3835390401, 4022224774,
   264347078, 604807628, 770255983, 1249150122, 1555081692, 1996064986,
   2554220882, 2821834349, 2952996808, 3210313671, 3336571891, 3584528711,
   113926993, 338241895, 666307205, 773529912, 1294757372, 1396182291,
   1695183700, 1986661051, 2177026350, 2456956037, 2730485921, 2820302411,
   3259730800, 3345764771, 3516065817, 3600352804, 4094571909, 275423344,
   430227734, 506948616, 659060556, 883997877, 958139571, 1322822218,
   1537002063, 1747873779, 1955562222, 2024104815, 2227730452, 2361852424,
   2428436474, 2756734187, 3204031479, 3329325298]

def extendSchedule (w : Array Nat) : Array Nat :=
  (List.range 48).foldl (fun w j =>
    let i := j + 16
    w.push ((ssig1 (w.getD (i - 2) 0) + w.getD (i - 7) 0 + ssig0 (w.getD (i - 15) 0) + w.getD (i - 16) 0) % M32)) w

structure Sha8 where
  a : Nat
  b : Nat
  c : Nat
  d : Nat
  e : Nat
  f : Nat
  g : Nat
  h : Nat
deriving DecidableEq

def shaRound (st : Sha8) (ki wi : Nat) : Sha8 :=
  let t1 := (st.h + bsig1 st.e + ((st.e &&& st.f) ^^^ ((st.e ^^^ 4294967295) &&& st.g)) + ki + wi) % M32
  let t2 := (bsig0 st.a + ((st.a &&& st.b) ^^^ (st.a &&& st.c) ^^^ (st.b &&& st.c))) % M32
  ⟨(t1 + t2) % M32, st.a, st.b, st.c, (st.d + t1) % M32, st.e, st.f, st.g⟩

def compressBlock (st : Sha8) (block : List Nat) : Sha8 :=
  let w := extendSchedule (bytesToWords block).toArray
  let r := (List.range 64).foldl (fun s i => shaRound s (shaK.getD i 0) (w.getD i 0)) st
  ⟨(st.a + r.a) % M32, (st.b + r.b) % M32, (st.c + r.c) % M32, (st.d + r.d) % M32,
   (st.e + r.e) % M32, (st.f + r.f) % M32, (st.g + r.g) % M32, (st.h + r.h) % M32⟩

def sha256words (s : String) : Sha8 :=
  (chunks64 (padBytes (utf8Bytes s))).foldl compressBlock
    ⟨1779033703, 3144134277, 1013904242, 2773480762, 1359893119, 2600822924, 528734635, 1541459225⟩

def hexCharOf (n : Nat) : Char := if n < 10 then Char.ofNat (48 + n) else Char.ofNat (87 + n)

def wordHex (w : Nat) : List Char := (List.range 8).map (fun i => hexCharOf ((w >>> (4 * (7 - i))) % 16))

def sha256hex (s : String) : String :=
  let st := sha256words s
  ⟨wordHex st.a ++ wordHex st.b ++ wordHex st.c ++ wordHex st.d ++
   wordHex st.e ++ wordHex st.f ++ wordHex st.g ++ wordHex st.h⟩

/-! ### Python string helpers -/

/-- Embeds Python `str.startswith` on the underlying character lists. -/
def listIsPre : List Char → List Char → Bool
  | [], _ => true
  | _ :: _, [] => false
  | p :: ps, c :: cs => p == c && listIsPre ps cs

def pyStartsWith (s pre : String) : Bool := listIsPre pre.data s.data

/-- Number of leading '0' characters of a string (used to phrase the PoW condition). -/
def leadingZeroChars : List Char → Nat
  | [] => 0
  | c :: cs => if c = '0' then leadingZeroChars cs + 1 else 0

/-! ### PyCap (`pycap.py`): the proof-of-work provider -/

/-- Embeds `pycap.Challenge`.  Timestamps are modelled as rationals (Python floats carry
absolute UNIX times here; no claim depends on float rounding). -/
structure Challenge where
  challenge : String
  difficulty : Nat
  expires_at : ℚ
deriving DecidableEq

/-- Embeds the `pycap.PyCap.__init__` configuration state (`_difficulty`, `_ttl`). -/
structure PyCap where
  difficulty : Nat
  ttl_seconds : Nat
deriving DecidableEq

/-- Embeds `PyCap.issue`: `time.time()` is the `now` parameter and the random
`secrets.token_hex(16)` draw is the `tok` oracle parameter. -/
def PyCap.issue (p : PyCap) (now : ℚ) (tok : String) : Challenge :=
  ⟨tok, p.difficulty, now + (p.ttl_seconds : ℚ)⟩

/-- Embeds `PyCap._hash`: `hashlib.sha256(s.encode("utf-8")).hexdigest()`. -/
def PyCap.hashHex (s : String) : String := sha256hex s

/-- Embeds `PyCap.verify`.  The method reads no instance state (`_hash` is static), so it is
embedded as a plain function; `time.time()` is the `now` parameter. -/
def PyCap.verify (now : ℚ) (ch : Challenge) (nonce : String) : Bool × String :=
  if now > ch.expires_at then (false, "Challenge expired")
  else if !(pyStartsWith (PyCap.hashHex (ch.challenge ++ ":" ++ nonce))
      (String.mk (List.replicate ch.difficulty '0'))) then
    (false, "Insufficient PoW difficulty")
  else (true, "ok")

/-! ### Server data model (`server.py`) -/

/-- One entry of `ACTIVE_CHALLENGES`: `{correct_ids, pow_challenge, difficulty}`. -/
structure StoreRecord where
  correct_ids : Finset String
  pow_challenge : String
  difficulty : Nat
deriving DecidableEq

/-- The in-memory store `ACTIVE_CHALLENGES`, as an association list with unique keys. -/
abbrev Store := List (String × StoreRecord)

def lookupStore : Store → String → Option StoreRecord
  | [], _ => none
  | (k, r) :: rest, id => if k = id then some r else lookupStore rest id

/-- Embeds `ACTIVE_CHALLENGES.pop(id, None)` (the deletion part). -/
def eraseKey (id : String) (store : Store) : Store :=
  store.filter (fun p => p.1 != id)

/-- Embeds `ACTIVE_CHALLENGES[id] = record` (dict assignment). -/
def insertStore (id : String) (r : StoreRecord) (store : Store) : Store :=
  (id, r) :: eraseKey id store

/-- The constant `DEFAULT_DIFFICULTY` from `server.py`. -/
def DEFAULT_DIFFICULTY : Nat := 5

/-- The module-level `PY_CAP = PyCap(difficulty=DEFAULT_DIFFICULTY, ttl_seconds=180)`. -/
def PY_CAP : PyCap := ⟨DEFAULT_DIFFICULTY, 180⟩

/-- Outcome of `api_verify`, one constructor per `return` site. -/
inductive VerifyResult where
  | invalidCaptcha : VerifyResult
  | countMismatch (required got : Nat) : VerifyResult
  | missingNonce : VerifyResult
  | powFail (err : String) : VerifyResult
  | done (success : Bool) : VerifyResult
deriving DecidableEq

/-- Embeds `api_verify` from `server.py`.  `dflt` is the module constant `DEFAULT_DIFFICULTY`
(the configured `PY_CAP` difficulty), `now` is `time.time()` at the verify call,
`captcha_id`/`selected_ids`/`nonce` are the parsed request fields, with `""`
standing for an absent (falsy) `captcha_id` or nonce.  Returns the response and
the store after the call.  The redundant second `ACTIVE_CHALLENGES.get` (whose
`if not record` branch is unreachable for a present key) is merged into the
single lookup. -/
def api_verify (dflt : Nat) (now : ℚ) (store : Store) (captcha_id : String)
    (selected_ids : Finset String) (nonce : String) : VerifyResult × Store :=
  if captcha_id = "" then (.invalidCaptcha, store) else
  match lookupStore store captcha_id with
  | none => (.invalidCaptcha, store)
  | some record =>
    let correct_ids := record.correct_ids
    let pow_challenge := record.pow_challenge
    let difficulty := if record.difficulty = 0 then dflt else record.difficulty
    if selected_ids.card ≠ correct_ids.card then
      (.countMismatch correct_ids.card selected_ids.card, store)
    else if nonce = "" then (.missingNonce, store)
    else
      let ch : Challenge := ⟨pow_challenge, difficulty, 9999999999⟩
      match PyCap.verify now ch nonce with
      | (false, err) => (.powFail err, store)
      | (true, _) => (.done (selected_ids == correct_ids), eraseKey captcha_id store)

/-- Response of `api_check`; the `pow` echo is `none` on the invalid branch. -/
structure CheckResult where
  valid : Bool
  correct : Bool
  pow : Option (String × Nat)
deriving DecidableEq

/-- Embeds `api_check` from `server.py`: the non-destructive status query. -/
def api_check (store : Store) (captcha_id : String) (selected_ids : Finset String) :
    CheckResult × Store :=
  if captcha_id = "" then (⟨false, false, none⟩, store) else
  match lookupStore store captcha_id with
  | none => (⟨false, false, none⟩, store)
  | some record =>
    (⟨true, selected_ids == record.correct_ids,
      some (record.pow_challenge, record.difficulty)⟩, store)

/-! ### The sampler / issuance endpoint (`api_captcha`) -/

/-- One element of the response `images` list: `{"id": ..., "url": ...}`. -/
structure GridImage where
  id : String
  url : String
deriving DecidableEq

/-- The `pow` block of the issuance response. -/
structure PowBlock where
  challenge : String
  difficulty : Nat
  algo : String
deriving DecidableEq

/-- The issuance response of `api_captcha`. -/
structure CaptchaResponse where
  captcha_id : String
  prompt : String
  select_count : Nat
  images : List GridImage
  pow : PowBlock
deriving DecidableEq

/-- The random draws consumed by one `api_captcha` call, passed in as an oracle:
`random.choice`, `random.randint`, the three `random.sample` calls, the
`uuid.uuid4()` stream, `random.shuffle` and `secrets.token_hex(16)`. -/
structure Draws where
  target_category : String
  select_count : Nat
  target_files : List String
  non_target_fill : List (String × String)
  fallback_extra : List String
  image_ids : List String
  captcha_id : String
  pow_token : String
  shuffle : List GridImage → List GridImage

/-- Embeds `categories[c]` on the category mapping (present under the draw contract). -/
def catFiles (categories : List (String × List String)) (c : String) : List String :=
  (List.lookup c categories).getD []

/-- The `non_target` pool: every `(cat, f)` pair from the non-target categories,
in iteration order. -/
def nonTargetPool (categories : List (String × List String)) (target : String) :
    List (String × String) :=
  (categories.filter (fun p => p.1 != target)).flatMap (fun p => p.2.map (fun f => (p.1, f)))

/-- Embeds `max_correct_possible = min(4, len(categories[target]), 6)`. -/
def maxCorrectPossible (categories : List (String × List String)) (target : String) : Nat :=
  min 4 (min (catFiles categories target).length 6)

/-- Embeds `min_correct_required = 2 if max_correct_possible >= 2 else 1`. -/
def minCorrectRequired (categories : List (String × List String)) (target : String) : Nat :=
  if 2 ≤ maxCorrectPossible categories target then 2 else 1

/-- Embeds `target_category.replace("_illusion", "").replace("_", " ")`. -/
def displayLabel (target : String) : String :=
  (target.replace "_illusion" "").replace "_" " "

/-- Embeds `needed_non_target = 6 - len(target_files)`, over the integers as in Python. -/
def neededNonTarget (d : Draws) : Int := 6 - (d.target_files.length : Int)

/-- The test `len(non_target) < needed_non_target` selecting the fallback branch. -/
def shortage (categories : List (String × List String)) (d : Draws) : Prop :=
  ((nonTargetPool categories d.target_category).length : Int) < neededNonTarget d

instance (categories : List (String × List String)) (d : Draws) :
    Decidable (shortage categories d) := by
  unfold shortage
  exact inferInstance

/-- The `fill` list chosen by `api_captcha`: the shortage branch maps the fallback
sample from the target category, the normal branch uses the non-target sample. -/
def fillChosen (categories : List (String × List String)) (d : Draws) :
    List (String × String) :=
  if shortage categories d then
    d.fallback_extra.map (fun f => (d.target_category, f))
  else d.non_target_fill

/-- Builds one grid entry: `{"id": img_id, "url": f"/images/{cat}/{f}"}`. -/
def mkEntry (p : String × String) (i : String) : GridImage :=
  ⟨i, "/images/" ++ p.1 ++ "/" ++ p.2⟩

/-- Embeds `api_captcha` from `server.py`.  `cfg` is the `PY_CAP` configuration, `now` is
`time.time()` inside `PY_CAP.issue`, `categories` the snapshot returned by
`_discover_categories`, `d` the random draws.  Returns `none` on the empty-catalog
error response, otherwise the JSON payload and the store after insertion.
`select_count` and the `min`/`max` bounds constrain the draws (see `drawsValid`);
the response's `select_count` field is `len(target_files)` as in the source. -/
def api_captcha (cfg : PyCap) (now : ℚ) (categories : List (String × List String))
    (d : Draws) (store : Store) : Option (CaptchaResponse × Store) :=
  if categories = [] then none else
  let target_category := d.target_category
  let display_label := displayLabel target_category
  let target_files := d.target_files
  let fill := fillChosen categories d
  let pairs := target_files.map (fun f => (target_category, f)) ++ fill
  let images := List.zipWith mkEntry pairs d.image_ids
  let correct_ids := (d.image_ids.take target_files.length).toFinset
  let shuffled := d.shuffle images
  let ch := PyCap.issue cfg now d.pow_token
  some ({ captcha_id := d.captcha_id,
          prompt := "Which images contain " ++ display_label ++ "?",
          select_count := target_files.length,
          images := shuffled,
          pow := ⟨ch.challenge, ch.difficulty, "sha256-prefix-zeros"⟩ },
        insertStore d.captcha_id ⟨correct_ids, ch.challenge, ch.difficulty⟩ store)

/-- Contract of the random draws: each oracle value is a possible output of the
`random` call that produced it (`choice` from the key list, `randint` within the
inclusive bounds, `sample` of the exact size without replacement from its
population, fresh distinct uuid tokens).  The shuffle contract is stated
separately because it quantifies over lists. -/
def drawsValid (categories : List (String × List String)) (d : Draws) : Prop :=
  d.target_category ∈ categories.map Prod.fst ∧
  minCorrectRequired categories d.target_category ≤ d.select_count ∧
  d.select_count ≤ maxCorrectPossible categories d.target_category ∧
  d.target_files.length = min d.select_count (catFiles categories d.target_category).length ∧
  d.target_files.Nodup ∧
  (∀ f ∈ d.target_files, f ∈ catFiles categories d.target_category) ∧
  (shortage categories d →
    (d.fallback_extra.length : Int) =
      min (neededNonTarget d)
        (max 0 ((catFiles categories d.target_category).length - d.target_files.length : Int)) ∧
    d.fallback_extra.Nodup ∧
    (∀ f ∈ d.fallback_extra,
      f ∈ catFiles categories d.target_category ∧ f ∉ d.target_files)) ∧
  (¬ shortage categories d →
    (d.non_target_fill.length : Int) = neededNonTarget d ∧
    d.non_target_fill.Nodup ∧
    (∀ p ∈ d.non_target_fill, p ∈ nonTargetPool categories d.target_category)) ∧
  d.image_ids.Nodup ∧
  d.image_ids.length = d.target_files.length + (fillChosen categories d).length

instance (categories : List (String × List String)) (d : Draws) :
    Decidable (drawsValid categories d) := by
  unfold drawsValid
  exact inferInstance

/-- The `random.shuffle` contract: the shuffled list is a permutation of its input. -/
def shuffleOk (d : Draws) : Prop :=
  ∀ l : List GridImage, List.Perm (d.shuffle l) l

/-- A grid entry whose underlying file is served from category `cat`
(its URL is `/images/<cat>/<file>`). -/
def entryFromCategory (cat : String) (e : GridImage) : Prop :=
  ∃ f, e.url = "/images/" ++ cat ++ "/" ++ f

/-! ### Concrete example data (catalogs, draws and stores used by witnesses and
counterexamples) -/

def emptyResponse : CaptchaResponse := ⟨"", "", 0, [], ⟨"", 0, ""⟩⟩

def emptyRecord : StoreRecord := ⟨∅, "", 0⟩

/-- Two-category catalog: `{"cats": [a,b,c,d], "dogs": [x,y,z,w]}`. -/
def exCats : List (String × List String) :=
  [("cats", ["a", "b", "c", "d"]), ("dogs", ["x", "y", "z", "w"])]

/-- A possible outcome of the random draws on `exCats`: target "cats",
two correct images, the four dog images as distractors. -/
def exDraws : Draws :=
  { target_category := "cats", select_count := 2, target_files := ["a", "b"],
    non_target_fill := [("dogs", "x"), ("dogs", "y"), ("dogs", "z"), ("dogs", "w")],
    fallback_extra := [], image_ids := ["i1", "i2", "i3", "i4", "i5", "i6"],
    captcha_id := "cap1", pow_token := "a1b2c3d4e5f60718293a4b5c6d7e8f90", shuffle := id }

/-- The store after issuing on `exCats`/`exDraws` at time 1000 with PoW difficulty
`diff` and ttl 180 seconds. -/
def issuedStoreAt (diff : Nat) : Store :=
  ((api_captcha ⟨diff, 180⟩ 1000 exCats exDraws []).map Prod.snd).getD []

/-- The response of that issuance. -/
def issuedRespAt (diff : Nat) : CaptchaResponse :=
  ((api_captcha ⟨diff, 180⟩ 1000 exCats exDraws []).map Prod.fst).getD emptyResponse

/-- Single-category catalog forcing the distractor-shortage fallback. -/
def c4Cats : List (String × List String) := [("cats", ["a", "b", "c"])]

/-- Shortage draws on `c4Cats`: two correct images, the remaining target image "c"
as fallback filler. -/
def c4Draws : Draws :=
  { target_category := "cats", select_count := 2, target_files := ["a", "b"],
    non_target_fill := [], fallback_extra := ["c"], image_ids := ["i1", "i2", "i3"],
    captcha_id := "cap1", pow_token := "t", shuffle := id }

def c4Store : Store :=
  ((api_captcha PY_CAP 1000 c4Cats c4Draws []).map Prod.snd).getD []

def c4Resp : CaptchaResponse :=
  ((api_captcha PY_CAP 1000 c4Cats c4Draws []).map Prod.fst).getD emptyResponse

/-- Catalog where the non-target pool (one dog image) plus the unused target images
(three) could fill the four distractor slots, but the shortage branch ignores the
pool entirely. -/
def c8Cats : List (String × List String) :=
  [("cats", ["a", "b", "c", "d", "e"]), ("dogs", ["x"])]

def c8Draws : Draws :=
  { target_category := "cats", select_count := 2, target_files := ["a", "b"],
    non_target_fill := [], fallback_extra := ["c", "d", "e"],
    image_ids := ["i1", "i2", "i3", "i4", "i5"],
    captcha_id := "cap1", pow_token := "t", shuffle := id }

def c8Resp : CaptchaResponse :=
  ((api_captcha PY_CAP 1000 c8Cats c8Draws []).map Prod.fst).getD emptyResponse

/-- A plain stored record used by endpoint-level witnesses. -/
def wRecord : StoreRecord := ⟨{"s1", "s2"}, "a1b2c3d4e5f60718293a4b5c6d7e8f90", 1⟩

def wStore : Store := [("cap9", wRecord)]

/-- Sanity check of the hash embedding against the FIPS 180-4 test vector for "abc". -/
theorem sha256hex_test_vector :
    sha256hex "abc" = "ba7816bf8f01cfea414140de5dae2223b00361a396177a9cb410ff61f20015ad" := by
  decide

/-! ### Helper lemmas about the store -/

theorem lookupStore_eraseKey_self (id : String) (store : Store) :
    lookupStore (eraseKey id store) id = none := by
  induction store with
  | nil => rfl
  | cons p rest ih =>
    obtain ⟨k, r⟩ := p
    by_cases h : k = id
    · simpa [eraseKey, List.filter_cons, h] using ih
    · simpa [eraseKey, List.filter_cons, h, lookupStore] using ih

theorem lookupStore_insertStore_self (id : String) (r : StoreRecord) (store : Store) :
    lookupStore (insertStore id r store) id = some r := by
  simp [insertStore, lookupStore]

/-- Unfolding of `api_verify` once the record is found. -/
theorem api_verify_known (dflt : Nat) (now : ℚ) (store : Store) (id : String)
    (sel : Finset String) (nonce : String) (r : StoreRecord)
    (hid : ¬ id = "") (hlook : lookupStore store id = some r) :
    api_verify dflt now store id sel nonce =
      if sel.card ≠ r.correct_ids.card then
        (.countMismatch r.correct_ids.card sel.card, store)
      else if nonce = "" then (.missingNonce, store)
      else
        match PyCap.verify now
            ⟨r.pow_challenge, if r.difficulty = 0 then dflt else r.difficulty, 9999999999⟩
            nonce with
        | (false, err) => (.powFail err, store)
        | (true, _) => (.done (sel == r.correct_ids), eraseKey id store) := by
  unfold api_verify
  rw [if_neg hid, hlook]

/-! ### Helper lemmas about the PoW check and issuance -/

/-- Python's `digest.startswith("0" * d)` holds exactly when the digest has at
least `d` leading '0' characters. -/
theorem listIsPre_replicate_zero (d : Nat) (cs : List Char) :
    listIsPre (List.replicate d '0') cs = true ↔ d ≤ leadingZeroChars cs := by
  induction d generalizing cs with
  | zero => simp [listIsPre]
  | succ n ih =>
    cases cs with
    | nil => simp [List.replicate_succ, listIsPre, leadingZeroChars]
    | cons c cs' =>
      rw [List.replicate_succ]
      by_cases hc : c = '0'
      · subst hc
        simp [listIsPre, leadingZeroChars, ih, Nat.succ_le_succ_iff]
      · simp [listIsPre, leadingZeroChars, hc, Ne.symm hc]

/-- With difficulty 0 and a live challenge, the PoW check accepts any nonce. -/
theorem PyCap.verify_difficulty_zero (now : ℚ) (chs : String) (ex : ℚ) (nonce : String)
    (h : ¬ now > ex) : PyCap.verify now ⟨chs, 0, ex⟩ nonce = (true, "ok") := by
  unfold PyCap.verify
  rw [if_neg h]
  rfl

/-- A non-expired PoW check never reports the expiry error string. -/
theorem PyCap.verify_err_of_not_expired (now : ℚ) (ch : Challenge) (nonce : String)
    (h : ¬ now > ch.expires_at) (ok : Bool) (err : String)
    (hv : PyCap.verify now ch nonce = (ok, err)) : err ≠ "Challenge expired" := by
  unfold PyCap.verify at hv
  rw [if_neg h] at hv
  by_cases hp : pyStartsWith (PyCap.hashHex (ch.challenge ++ ":" ++ nonce))
      (String.mk (List.replicate ch.difficulty '0')) = true
  · rw [hp] at hv
    have herr : err = "ok" := (congrArg Prod.snd hv).symm
    rw [herr]
    decide
  · have hp' : pyStartsWith (PyCap.hashHex (ch.challenge ++ ":" ++ nonce))
        (String.mk (List.replicate ch.difficulty '0')) = false := by
      revert hp
      cases pyStartsWith (PyCap.hashHex (ch.challenge ++ ":" ++ nonce))
        (String.mk (List.replicate ch.difficulty '0')) <;> simp
    rw [hp'] at hv
    have herr : err = "Insufficient PoW difficulty" := (congrArg Prod.snd hv).symm
    rw [herr]
    decide

/-- Shape of a successful issuance: the response fields and the inserted record,
in terms of the catalog and the draws. -/
theorem api_captcha_some (cfg : PyCap) (now : ℚ) (categories : List (String × List String))
    (d : Draws) (store store' : Store) (resp : CaptchaResponse)
    (h : api_captcha cfg now categories d store = some (resp, store')) :
    resp.captcha_id = d.captcha_id ∧
    resp.select_count = d.target_files.length ∧
    resp.images = d.shuffle (List.zipWith mkEntry
      (d.target_files.map (fun f => (d.target_category, f)) ++ fillChosen categories d)
      d.image_ids) ∧
    store' = insertStore d.captcha_id
      ⟨(d.image_ids.take d.target_files.length).toFinset, d.pow_token, cfg.difficulty⟩
      store := by
  unfold api_captcha at h
  split at h
  · exact absurd h (by simp)
  · simp only [Option.some.injEq, Prod.mk.injEq] at h
    obtain ⟨h1, h2⟩ := h
    subst h1
    subst h2
    exact ⟨rfl, rfl, rfl, rfl⟩

/-- The record found under the fresh id after issuance is the inserted one. -/
theorem api_captcha_record (cfg : PyCap) (now : ℚ) (categories : List (String × List String))
    (d : Draws) (store store' : Store) (resp : CaptchaResponse) (r : StoreRecord)
    (h : api_captcha cfg now categories d store = some (resp, store'))
    (hlook : lookupStore store' resp.captcha_id = some r) :
    r = ⟨(d.image_ids.take d.target_files.length).toFinset, d.pow_token, cfg.difficulty⟩ := by
  obtain ⟨hcid, -, -, hst⟩ := api_captcha_some cfg now categories d store store' resp h
  rw [hst, hcid, lookupStore_insertStore_self] at hlook
  injection hlook with h'
  exact h'.symm

/-! ### Claim C1 -/

/-- Claim C1 (as stated) is false: a verification attempt that fails the
selection-count check leaves the record in the store, and a second verify call
with the same challenge id does not return `UnknownOrExpiredChallenge`.  Concrete
run: issue on the two-category catalog, then verify twice with a one-element
selection against a two-element correct set. -/
theorem claim_C1_counterexample :
    (api_verify 5 0 (issuedStoreAt 5) "cap1" {"x"} "n").2 = issuedStoreAt 5 ∧
    (api_verify 5 0 ((api_verify 5 0 (issuedStoreAt 5) "cap1" {"x"} "n").2)
        "cap1" {"x"} "n").1 ≠ .invalidCaptcha := by
  decide

/-- Claim C1 (amended): the record is removed exactly on a fully-checked attempt —
whenever `api_verify` reaches the final answer comparison (result `done`, success
or not), the record is popped and a second verify on the same id returns
`UnknownOrExpiredChallenge`; after a selection-count, missing-nonce or PoW
failure the record remains in the store. -/
theorem claim_C1_amended (dflt : Nat) (now : ℚ) (store : Store) (id : String)
    (sel : Finset String) (nonce : String) (r : StoreRecord)
    (hid : ¬ id = "") (hlook : lookupStore store id = some r) :
    (∀ b, (api_verify dflt now store id sel nonce).1 = .done b →
      (api_verify dflt now store id sel nonce).2 = eraseKey id store ∧
      ∀ (now' : ℚ) (sel' : Finset String) (nonce' : String),
        (api_verify dflt now' (api_verify dflt now store id sel nonce).2
          id sel' nonce').1 = .invalidCaptcha) ∧
    ((∀ b, (api_verify dflt now store id sel nonce).1 ≠ .done b) →
      (api_verify dflt now store id sel nonce).2 = store) := by
  rw [api_verify_known dflt now store id sel nonce r hid hlook]
  by_cases hcard : sel.card ≠ r.correct_ids.card
  · rw [if_pos hcard]
    exact ⟨fun b hb => (nomatch hb), fun _ => rfl⟩
  · rw [if_neg hcard]
    by_cases hn : nonce = ""
    · rw [if_pos hn]
      exact ⟨fun b hb => (nomatch hb), fun _ => rfl⟩
    · rw [if_neg hn]
      rcases hvf : PyCap.verify now
          ⟨r.pow_challenge, if r.difficulty = 0 then dflt else r.difficulty, 9999999999⟩
          nonce with ⟨ok, err⟩
      cases ok
      · exact ⟨fun b hb => (nomatch hb), fun _ => rfl⟩
      · refine ⟨fun b _ => ⟨rfl, fun now' sel' nonce' => ?_⟩, fun hne => absurd rfl (hne _)⟩
        unfold api_verify
        rw [if_neg hid, lookupStore_eraseKey_self]

/-- Witness for the amended C1: a concrete fully-checked attempt (difficulty-1
record, valid nonce) pops the record, and the second call is rejected. -/
theorem claim_C1_witness :
    ¬ "cap9" = "" ∧ lookupStore wStore "cap9" = some wRecord ∧
    ((api_verify 1 0 wStore "cap9" {"s1", "s2"} "6").2 = eraseKey "cap9" wStore ∧
      (api_verify 1 0 ((api_verify 1 0 wStore "cap9" {"s1", "s2"} "6").2)
        "cap9" {"s1", "s2"} "6").1 = .invalidCaptcha) := by
  refine ⟨by decide, by decide, ?_⟩
  have h := (claim_C1_amended 1 0 wStore "cap9" {"s1", "s2"} "6" wRecord
    (by decide) (by decide)).1 true (by decide)
  exact ⟨h.1, h.2 0 {"s1", "s2"} "6"⟩

/-! ### Claim C5 -/

/-- Claim C5: for a pending challenge id, `api_check` answers `valid = true` and
`correct = (selected_ids == correct_ids)`, takes no nonce, does not change the
store, and a repeated query returns the same answer. -/
theorem claim_C5 (store : Store) (id : String) (sel : Finset String) (r : StoreRecord)
    (hid : ¬ id = "") (hlook : lookupStore store id = some r) :
    api_check store id sel =
      (⟨true, sel == r.correct_ids, some (r.pow_challenge, r.difficulty)⟩, store) ∧
    api_check (api_check store id sel).2 id sel = api_check store id sel := by
  have h1 : api_check store id sel =
      (⟨true, sel == r.correct_ids, some (r.pow_challenge, r.difficulty)⟩, store) := by
    unfold api_check
    rw [if_neg hid, hlook]
  exact ⟨h1, by rw [h1]; exact h1⟩

/-- Witness for C5 at a concrete pending record: valid, wrong answer reported, store kept. -/
theorem claim_C5_witness :
    ¬ "cap9" = "" ∧ lookupStore wStore "cap9" = some wRecord ∧
    api_check wStore "cap9" {"s1"} =
      (⟨true, false, some ("a1b2c3d4e5f60718293a4b5c6d7e8f90", 1)⟩, wStore) := by
  refine ⟨by decide, by decide, ?_⟩
  have h := (claim_C5 wStore "cap9" {"s1"} wRecord (by decide) (by decide)).1
  simpa using h

/-! ### Claim C9 -/

/-- Claim C9: when the id is known but the selection cardinality differs from the
correct set's, `api_verify` fails with `SelectionCountMismatch`, the store is
untouched, and the result does not depend on the submitted nonce (the PoW check
is never evaluated). -/
theorem claim_C9 (dflt : Nat) (now : ℚ) (store : Store) (id : String)
    (sel : Finset String) (nonce : String) (r : StoreRecord)
    (hid : ¬ id = "") (hlook : lookupStore store id = some r)
    (hcard : sel.card ≠ r.correct_ids.card) :
    api_verify dflt now store id sel nonce =
      (.countMismatch r.correct_ids.card sel.card, store) ∧
    ∀ (nonce' : String),
      api_verify dflt now store id sel nonce' = api_verify dflt now store id sel nonce := by
  have h : ∀ (m : String), api_verify dflt now store id sel m =
      (.countMismatch r.correct_ids.card sel.card, store) := by
    intro m
    rw [api_verify_known dflt now store id sel m r hid hlook, if_pos hcard]
  exact ⟨h nonce, fun nonce' => by rw [h nonce', h nonce]⟩

/-- Witness for C9 at a concrete pending record and a one-element selection. -/
theorem claim_C9_witness :
    ¬ "cap9" = "" ∧ lookupStore wStore "cap9" = some wRecord ∧
    ({"s1"} : Finset String).card ≠ wRecord.correct_ids.card ∧
    api_verify 1 0 wStore "cap9" {"s1"} "anything" = (.countMismatch 2 1, wStore) := by
  refine ⟨by decide, by decide, by decide, ?_⟩
  have h := (claim_C9 1 0 wStore "cap9" {"s1"} "anything" wRecord
    (by decide) (by decide) (by decide)).1
  simpa using h

/-! ### Claim C10 -/

/-- Claim C10: `api_check` never modifies the challenge store — the store after any
call is the one before it, every lookup is unchanged, and a later `api_verify` on
the queried id behaves exactly as it would have without the check (in particular
a pending id is still found, never answered `UnknownOrExpiredChallenge` for
absence). -/
theorem claim_C10 (store : Store) (id : String) (sel : Finset String) :
    (api_check store id sel).2 = store ∧
    (∀ id', lookupStore (api_check store id sel).2 id' = lookupStore store id') ∧
    (∀ (dflt : Nat) (now : ℚ) (sel' : Finset String) (nonce : String) (r : StoreRecord),
      ¬ id = "" → lookupStore store id = some r →
      api_verify dflt now (api_check store id sel).2 id sel' nonce =
        api_verify dflt now store id sel' nonce ∧
      (api_verify dflt now (api_check store id sel).2 id sel' nonce).1 ≠
        .invalidCaptcha) := by
  have hframe : (api_check store id sel).2 = store := by
    unfold api_check
    by_cases hid : id = ""
    · rw [if_pos hid]
    · rw [if_neg hid]
      cases lookupStore store id <;> rfl
  refine ⟨hframe, fun id' => by rw [hframe], ?_⟩
  intro dflt now sel' nonce r hid hlook
  refine ⟨by rw [hframe], ?_⟩
  rw [hframe, api_verify_known dflt now store id sel' nonce r hid hlook]
  by_cases hcard : sel'.card ≠ r.correct_ids.card
  · rw [if_pos hcard]; exact fun h => by cases h
  · rw [if_neg hcard]
    by_cases hn : nonce = ""
    · rw [if_pos hn]; exact fun h => by cases h
    · rw [if_neg hn]
      rcases PyCap.verify now
          ⟨r.pow_challenge, if r.difficulty = 0 then dflt else r.difficulty, 9999999999⟩
          nonce with ⟨ok, err⟩
      cases ok
      · exact fun h => by cases h
      · exact fun h => by cases h

/-! ### Helper lemmas about the grid construction -/

/-- The ids of the zipped grid entries are the id tokens consumed, in order. -/
theorem map_id_zipWith_mkEntry (ps : List (String × String)) :
    ∀ is : List String,
      (List.zipWith mkEntry ps is).map GridImage.id = is.take ps.length := by
  induction ps with
  | nil => intro is; simp
  | cons p ps ih =>
    intro is
    cases is with
    | nil => simp
    | cons i is' => simp [mkEntry, ih is']

/-- Every id consumed for the target block appears in the grid as an entry whose
URL points into the target category. -/
theorem mem_zipWith_target (tc : String) (fs : List String) :
    ∀ (rest : List (String × String)) (is : List String) (i : String),
      i ∈ is.take fs.length →
      ∃ e ∈ List.zipWith mkEntry (fs.map (fun f => (tc, f)) ++ rest) is,
        e.id = i ∧ entryFromCategory tc e := by
  induction fs with
  | nil => intro rest is i hi; simp at hi
  | cons f fs ih =>
    intro rest is i hi
    cases is with
    | nil => simp at hi
    | cons j js =>
      rw [List.length_cons, List.take_succ_cons] at hi
      rcases List.mem_cons.mp hi with h | h
      · exact ⟨mkEntry (tc, f) j, List.mem_cons_self _ _, h.symm, ⟨f, rfl⟩⟩
      · obtain ⟨e, he, hid, hcat⟩ := ih rest js i h
        exact ⟨e, List.mem_cons_of_mem _ he, hid, hcat⟩

/-! ### Claim C2 -/

/-- Claim C2: on a challenge issued with configured difficulty 0, verification of a
known id accepts any non-empty nonce — the PoW check is vacuous (note Python's
`int(record["difficulty"]) or DEFAULT_DIFFICULTY` keeps 0 because the default is
the configured 0) — and the overall result is decided by selection cardinality
and answer-set equality alone, consuming the record. -/
theorem claim_C2 (ttl : Nat) (now0 now : ℚ) (categories : List (String × List String))
    (d : Draws) (store store' : Store) (resp : CaptchaResponse) (r : StoreRecord)
    (sel : Finset String) (nonce : String)
    (hiss : api_captcha ⟨0, ttl⟩ now0 categories d store = some (resp, store'))
    (hlook : lookupStore store' resp.captcha_id = some r)
    (hid : ¬ resp.captcha_id = "") (hnonce : ¬ nonce = "")
    (hcard : sel.card = r.correct_ids.card) (hnow : ¬ now > (9999999999 : ℚ)) :
    r.difficulty = 0 ∧
    PyCap.verify now ⟨r.pow_challenge, 0, 9999999999⟩ nonce = (true, "ok") ∧
    api_verify 0 now store' resp.captcha_id sel nonce =
      (.done (sel == r.correct_ids), eraseKey resp.captcha_id store') := by
  have hr := api_captcha_record ⟨0, ttl⟩ now0 categories d store store' resp r hiss hlook
  have hdiff : r.difficulty = 0 := by rw [hr]
  have hpow : PyCap.verify now ⟨r.pow_challenge, 0, 9999999999⟩ nonce = (true, "ok") :=
    PyCap.verify_difficulty_zero now r.pow_challenge 9999999999 nonce hnow
  refine ⟨hdiff, hpow, ?_⟩
  rw [api_verify_known 0 now store' resp.captcha_id sel nonce r hid hlook,
    if_neg (fun hne => hne hcard), if_neg hnonce, hdiff]
  have hred : (if (0 : Nat) = 0 then (0 : Nat) else (0 : Nat)) = 0 := rfl
  rw [hred, hpow]

/-! ### Claim C3 -/

/-- Claim C3 (as stated) is false on the server flow: a challenge issued at time
1000 with ttl 180 expires at 1180, yet a verification at time 2000 with a nonce
meeting the difficulty succeeds (`done true`) instead of failing with
`PowExpired`, because `api_verify` rebuilds the challenge with
`expires_at = 9999999999.0`. -/
theorem claim_C3_counterexample :
    (PyCap.issue ⟨1, 180⟩ 1000 "a1b2c3d4e5f60718293a4b5c6d7e8f90").expires_at = 1180 ∧
    (2000 : ℚ) > 1180 ∧
    (api_captcha ⟨1, 180⟩ 1000 exCats exDraws []).isSome = true ∧
    (api_verify 1 2000 (issuedStoreAt 1) "cap1" {"i1", "i2"} "6").1 = .done true := by
  refine ⟨by norm_num [PyCap.issue], by norm_num, by decide, by decide⟩

/-- Claim C3 (amended): expiry is enforced only at the `PyCap` layer — `PyCap.verify`
called after `expires_at` fails with `PowExpired` — but `api_verify` discards the
issued expiry and substitutes `expires_at = 9999999999.0`, so for any call time up
to that constant the server never returns the `PowExpired` reason. -/
theorem claim_C3_amended (now : ℚ) (ch : Challenge) (nonce : String) :
    (now > ch.expires_at → PyCap.verify now ch nonce = (false, "Challenge expired")) ∧
    (∀ (dflt : Nat) (now' : ℚ) (store : Store) (id : String) (sel : Finset String)
        (nonce' : String), ¬ now' > (9999999999 : ℚ) →
      (api_verify dflt now' store id sel nonce').1 ≠ .powFail "Challenge expired") := by
  constructor
  · intro h
    unfold PyCap.verify
    rw [if_pos h]
  · intro dflt now' store id sel nonce' hnow
    by_cases hid : id = ""
    · unfold api_verify
      rw [if_pos hid]
      exact fun hcon => nomatch hcon
    · cases hlk : lookupStore store id with
      | none =>
        unfold api_verify
        rw [if_neg hid, hlk]
        exact fun hcon => nomatch hcon
      | some r =>
        rw [api_verify_known dflt now' store id sel nonce' r hid hlk]
        by_cases hcard : sel.card ≠ r.correct_ids.card
        · rw [if_pos hcard]
          exact fun hcon => nomatch hcon
        · rw [if_neg hcard]
          by_cases hn : nonce' = ""
          · rw [if_pos hn]
            exact fun hcon => nomatch hcon
          · rw [if_neg hn]
            rcases hv : PyCap.verify now'
                ⟨r.pow_challenge, if r.difficulty = 0 then dflt else r.difficulty, 9999999999⟩
                nonce' with ⟨ok, err⟩
            have herr := PyCap.verify_err_of_not_expired now'
              ⟨r.pow_challenge, if r.difficulty = 0 then dflt else r.difficulty, 9999999999⟩
              nonce' hnow ok err hv
            cases ok
            · intro hcon
              injection hcon with h'
              exact herr h'
            · exact fun hcon => nomatch hcon

/-- Witness for the amended C3: an expired `PyCap` challenge is rejected with the
expiry reason, while the server-level verify at the same wall-clock time cannot
produce that reason. -/
theorem claim_C3_witness :
    ((2000 : ℚ) > 1180) ∧
    PyCap.verify 2000 ⟨"a1b2c3d4e5f60718293a4b5c6d7e8f90", 1, 1180⟩ "6" =
      (false, "Challenge expired") ∧
    (¬ (2000 : ℚ) > 9999999999) ∧
    (api_verify 1 2000 (issuedStoreAt 1) "cap1" {"i1", "i2"} "6").1 ≠
      .powFail "Challenge expired" := by
  refine ⟨by decide, ?_, by decide, ?_⟩
  · exact (claim_C3_amended 2000 ⟨"a1b2c3d4e5f60718293a4b5c6d7e8f90", 1, 1180⟩ "6").1
      (by decide)
  · exact (claim_C3_amended 2000 ⟨"", 0, 0⟩ "").2 1 2000 (issuedStoreAt 1) "cap1"
      {"i1", "i2"} "6" (by decide)

/-! ### Claim C6 -/

/-- Claim C6: for a live challenge, `PyCap.verify` computes the SHA-256 hex digest of
`challenge ++ ":" ++ nonce` and succeeds exactly when that digest has at least
`difficulty` leading '0' characters, failing with `InsufficientDifficulty`
otherwise. -/
theorem claim_C6 (now : ℚ) (ch : Challenge) (nonce : String)
    (h : ¬ now > ch.expires_at) :
    (PyCap.verify now ch nonce = (true, "ok") ↔
      ch.difficulty ≤ leadingZeroChars (sha256hex (ch.challenge ++ ":" ++ nonce)).data) ∧
    (¬ ch.difficulty ≤ leadingZeroChars (sha256hex (ch.challenge ++ ":" ++ nonce)).data →
      PyCap.verify now ch nonce = (false, "Insufficient PoW difficulty")) := by
  have key : pyStartsWith (PyCap.hashHex (ch.challenge ++ ":" ++ nonce))
      (String.mk (List.replicate ch.difficulty '0')) = true ↔
      ch.difficulty ≤ leadingZeroChars (sha256hex (ch.challenge ++ ":" ++ nonce)).data :=
    listIsPre_replicate_zero ch.difficulty _
  unfold PyCap.verify
  rw [if_neg h]
  by_cases hp : pyStartsWith (PyCap.hashHex (ch.challenge ++ ":" ++ nonce))
      (String.mk (List.replicate ch.difficulty '0')) = true
  · rw [hp]
    exact ⟨iff_of_true rfl (key.mp hp), fun hn => absurd (key.mp hp) hn⟩
  · have hp' : pyStartsWith (PyCap.hashHex (ch.challenge ++ ":" ++ nonce))
        (String.mk (List.replicate ch.difficulty '0')) = false := by
      revert hp
      cases pyStartsWith (PyCap.hashHex (ch.challenge ++ ":" ++ nonce))
        (String.mk (List.replicate ch.difficulty '0')) <;> simp
    rw [hp']
    have hnn : ¬ ch.difficulty ≤
        leadingZeroChars (sha256hex (ch.challenge ++ ":" ++ nonce)).data :=
      fun hle => hp (key.mpr hle)
    exact ⟨iff_of_false (fun hcon => nomatch congrArg Prod.fst hcon) hnn, fun _ => rfl⟩

/-- Witness for C6 at a concrete live challenge of difficulty 1 whose digest for
nonce "6" has a leading zero. -/
theorem claim_C6_witness :
    (¬ (0 : ℚ) > 10) ∧
    (PyCap.verify 0 ⟨"a1b2c3d4e5f60718293a4b5c6d7e8f90", 1, 10⟩ "6" = (true, "ok") ↔
      1 ≤ leadingZeroChars
        (sha256hex ("a1b2c3d4e5f60718293a4b5c6d7e8f90" ++ ":" ++ "6")).data) := by
  exact ⟨by decide,
    (claim_C6 0 ⟨"a1b2c3d4e5f60718293a4b5c6d7e8f90", 1, 10⟩ "6" (by decide)).1⟩

/-- Witness for C2: the end-to-end difficulty-0 flow on the two-category catalog;
the record difficulty is 0, PoW passes with an arbitrary nonce, and verification
returns the answer-set comparison. -/
theorem claim_C2_witness :
    (¬ "whatever" = "") ∧
    ({"i1", "i2"} : Finset String).card = (["i1", "i2"].toFinset : Finset String).card ∧
    api_verify 0 2000 (issuedStoreAt 0) (issuedRespAt 0).captcha_id {"i1", "i2"} "whatever" =
      (.done (({"i1", "i2"} : Finset String) == ["i1", "i2"].toFinset),
        eraseKey (issuedRespAt 0).captcha_id (issuedStoreAt 0)) := by
  refine ⟨by decide, by decide, ?_⟩
  exact (claim_C2 180 1000 2000 exCats exDraws [] (issuedStoreAt 0) (issuedRespAt 0)
    ⟨["i1", "i2"].toFinset, "a1b2c3d4e5f60718293a4b5c6d7e8f90", 0⟩ {"i1", "i2"} "whatever"
    rfl (by decide) (by decide) (by decide) (by decide) (by decide)).2.2

/-- Witness for C10 at a concrete pending record: the store survives the check and
the id is still verifiable. -/
theorem claim_C10_witness :
    ((api_check wStore "cap9" {"s1"}).2 = wStore ∧
      lookupStore (api_check wStore "cap9" {"s1"}).2 "cap9" = some wRecord) ∧
    (api_verify 1 0 (api_check wStore "cap9" {"s1"}).2 "cap9" {"s1"} "n").1 ≠
      .invalidCaptcha := by
  have h := claim_C10 wStore "cap9" {"s1"}
  refine ⟨⟨h.1, by rw [h.2.1]; decide⟩, ?_⟩
  exact (h.2.2 1 0 {"s1"} "n" wRecord (by decide) (by decide)).2

/-! ### Claim C7 -/

/-- Claim C7: on every issuance whose draws respect the random-call contracts, the
response's `select_count` lies within `min_correct_required` and
`max_correct_possible`, and the stored `correct_ids` is a subset of the returned
grid's ids with exactly `select_count` members. -/
theorem claim_C7 (cfg : PyCap) (now : ℚ) (categories : List (String × List String))
    (d : Draws) (store store' : Store) (resp : CaptchaResponse) (r : StoreRecord)
    (hd : drawsValid categories d) (hsh : shuffleOk d)
    (hiss : api_captcha cfg now categories d store = some (resp, store'))
    (hlook : lookupStore store' resp.captcha_id = some r) :
    minCorrectRequired categories d.target_category ≤ resp.select_count ∧
    resp.select_count ≤ maxCorrectPossible categories d.target_category ∧
    r.correct_ids ⊆ (resp.images.map GridImage.id).toFinset ∧
    r.correct_ids.card = resp.select_count := by
  obtain ⟨hcid, hsc, himg, hst⟩ := api_captcha_some cfg now categories d store store' resp hiss
  have hr := api_captcha_record cfg now categories d store store' resp r hiss hlook
  obtain ⟨h1, h2, h3, h4, h5, h6, h7, h8, h9, h10⟩ := hd
  have hmaxL : maxCorrectPossible categories d.target_category ≤
      (catFiles categories d.target_category).length :=
    le_trans (min_le_right 4 _) (min_le_left _ 6)
  have hn : d.target_files.length = d.select_count := by
    rw [h4]
    exact Nat.min_eq_left (le_trans h3 hmaxL)
  have hpl : (d.target_files.map (fun f => (d.target_category, f)) ++
      fillChosen categories d).length =
      d.target_files.length + (fillChosen categories d).length := by
    rw [List.length_append, List.length_map]
  have hidslen : d.target_files.length ≤ d.image_ids.length := by
    rw [h10]
    exact Nat.le_add_right _ _
  refine ⟨?_, ?_, ?_, ?_⟩
  · rw [hsc, hn]; exact h2
  · rw [hsc, hn]; exact h3
  · rw [hr, himg]
    intro x hx
    rw [List.toFinset_eq_of_perm _ _ (List.Perm.map GridImage.id (hsh _)),
      map_id_zipWith_mkEntry, hpl]
    rw [List.mem_toFinset] at hx ⊢
    have hxx : x ∈ List.take d.target_files.length
        (List.take (d.target_files.length + (fillChosen categories d).length)
          d.image_ids) := by
      rw [List.take_take, inf_eq_left.mpr (Nat.le_add_right _ _)]
      exact hx
    exact List.mem_of_mem_take hxx
  · rw [hr, hsc,
      List.toFinset_card_of_nodup (List.Nodup.sublist (List.take_sublist _ _) h9),
      List.length_take]
    exact inf_eq_left.mpr hidslen

/-- Witness for C7: the concrete two-category issuance satisfies the bounds, the
subset property and the cardinality property. -/
theorem claim_C7_witness :
    drawsValid exCats exDraws ∧
    (minCorrectRequired exCats exDraws.target_category ≤ (issuedRespAt 5).select_count ∧
      (issuedRespAt 5).select_count ≤ maxCorrectPossible exCats exDraws.target_category ∧
      (⟨["i1", "i2"].toFinset, "a1b2c3d4e5f60718293a4b5c6d7e8f90", 5⟩ :
          StoreRecord).correct_ids ⊆
        ((issuedRespAt 5).images.map GridImage.id).toFinset ∧
      (⟨["i1", "i2"].toFinset, "a1b2c3d4e5f60718293a4b5c6d7e8f90", 5⟩ :
          StoreRecord).correct_ids.card = (issuedRespAt 5).select_count) := by
  refine ⟨by decide, ?_⟩
  exact claim_C7 ⟨5, 180⟩ 1000 exCats exDraws [] (issuedStoreAt 5) (issuedRespAt 5)
    ⟨["i1", "i2"].toFinset, "a1b2c3d4e5f60718293a4b5c6d7e8f90", 5⟩
    (by decide) (fun l => List.Perm.refl l) rfl (by decide)

/-! ### Claim C8 -/

/-- Claim C8 (as stated) is false: on the five-cats/one-dog catalog the shortage
branch is taken (pool of 1 < 4 needed), the grid comes back with 5 entries, yet
the distractor pool (1) plus the unused target images (3) could have filled the
4 distractor slots — the shortage branch simply never uses the non-target pool. -/
theorem claim_C8_counterexample :
    drawsValid c8Cats c8Draws ∧
    shuffleOk c8Draws ∧
    (api_captcha PY_CAP 1000 c8Cats c8Draws []).isSome = true ∧
    shortage c8Cats c8Draws ∧
    c8Resp.images.length = 5 ∧
    c8Resp.images.length < 6 ∧
    ((nonTargetPool c8Cats c8Draws.target_category).length : Int) +
        ((catFiles c8Cats c8Draws.target_category).length -
          c8Draws.target_files.length : Int) ≥ neededNonTarget c8Draws := by
  exact ⟨by decide, fun l => List.Perm.refl l, by decide, by decide, by decide,
    by decide, by decide⟩

/-- Claim C8 (amended): the grid never holds more than 6 entries; it holds exactly
6 whenever the non-target pool suffices; under the shortage branch it holds
`len(target_files) + min(needed, unused-target-images)` entries, which can be
fewer than 6 even when pool plus fallback together could fill the grid. -/
theorem claim_C8_amended (cfg : PyCap) (now : ℚ) (categories : List (String × List String))
    (d : Draws) (store store' : Store) (resp : CaptchaResponse)
    (hd : drawsValid categories d) (hsh : shuffleOk d)
    (hiss : api_captcha cfg now categories d store = some (resp, store')) :
    resp.images.length ≤ 6 ∧
    (¬ shortage categories d → resp.images.length = 6) ∧
    (shortage categories d →
      (resp.images.length : Int) = (d.target_files.length : Int) +
        min (neededNonTarget d)
          (max 0 ((catFiles categories d.target_category).length -
            d.target_files.length : Int))) := by
  obtain ⟨hcid, hsc, himg, hst⟩ := api_captcha_some cfg now categories d store store' resp hiss
  obtain ⟨h1, h2, h3, h4, h5, h6, h7, h8, h9, h10⟩ := hd
  have hmax4 : maxCorrectPossible categories d.target_category ≤ 4 := min_le_left 4 _
  have hn4 : d.target_files.length ≤ 4 := by
    rw [h4]
    exact le_trans (min_le_left _ _) (le_trans h3 hmax4)
  have hlen : resp.images.length =
      d.target_files.length + (fillChosen categories d).length := by
    rw [himg, List.Perm.length_eq (hsh _), List.length_zipWith, List.length_append,
      List.length_map, h10]
    exact min_self _
  by_cases hs : shortage categories d
  · obtain ⟨hfl, -, -⟩ := h7 hs
    have hfill : (fillChosen categories d).length = d.fallback_extra.length := by
      unfold fillChosen
      rw [if_pos hs, List.length_map]
    have hfl' : (d.fallback_extra.length : Int) =
        min (6 - (d.target_files.length : Int))
          (max 0 ((catFiles categories d.target_category).length -
            d.target_files.length : Int)) := hfl
    have hle : (d.fallback_extra.length : Int) ≤ 6 - (d.target_files.length : Int) := by
      rw [hfl']
      exact min_le_left _ _
    refine ⟨?_, fun hns => absurd hs hns, fun _ => ?_⟩
    · rw [hlen, hfill]
      omega
    · rw [hlen, hfill]
      push_cast
      rw [hfl']
      rfl
  · obtain ⟨hfl, -, -⟩ := h8 hs
    have hfill : (fillChosen categories d).length = d.non_target_fill.length := by
      unfold fillChosen
      rw [if_neg hs]
    have hfl' : (d.non_target_fill.length : Int) =
        6 - (d.target_files.length : Int) := hfl
    refine ⟨?_, fun _ => ?_, fun hcon => absurd hcon hs⟩
    · rw [hlen, hfill]
      omega
    · rw [hlen, hfill]
      omega

/-- Witness for the amended C8: the two-category issuance has no shortage and a
full 6-entry grid. -/
theorem claim_C8_witness :
    drawsValid exCats exDraws ∧
    (¬ shortage exCats exDraws) ∧
    ((issuedRespAt 5).images.length ≤ 6 ∧ (issuedRespAt 5).images.length = 6) := by
  refine ⟨by decide, by decide, ?_⟩
  have h := claim_C8_amended ⟨5, 180⟩ 1000 exCats exDraws [] (issuedStoreAt 5)
    (issuedRespAt 5) (by decide) (fun l => List.Perm.refl l) rfl
  exact ⟨h.1, h.2.1 (by decide)⟩

/-! ### Claim C4 -/

/-- Claim C4 (as stated) is false: on the single-category catalog the fallback
fills the grid with the remaining target image "c"; its grid entry has a
target-category URL but its id "i3" is not in the stored `correct_ids`. -/
theorem claim_C4_counterexample :
    drawsValid c4Cats c4Draws ∧
    shuffleOk c4Draws ∧
    (api_captcha PY_CAP 1000 c4Cats c4Draws []).isSome = true ∧
    GridImage.mk "i3" ("/images/" ++ "cats" ++ "/" ++ "c") ∈ c4Resp.images ∧
    entryFromCategory c4Draws.target_category
      (GridImage.mk "i3" ("/images/" ++ "cats" ++ "/" ++ "c")) ∧
    "i3" ∉ ((lookupStore c4Store "cap1").getD emptyRecord).correct_ids := by
  exact ⟨by decide, fun l => List.Perm.refl l, by decide, by decide, ⟨"c", rfl⟩, by decide⟩

/-- Claim C4 (amended): every member of `correct_ids` is the id of a grid entry
whose file comes from the target category, and `correct_ids` has exactly one
member per image of the drawn correct sample (`len(target_files)`); the converse
inclusion fails under the distractor-shortage fallback, whose target-category
filler entries stay outside `correct_ids`. -/
theorem claim_C4_amended (cfg : PyCap) (now : ℚ) (categories : List (String × List String))
    (d : Draws) (store store' : Store) (resp : CaptchaResponse) (r : StoreRecord)
    (hd : drawsValid categories d) (hsh : shuffleOk d)
    (hiss : api_captcha cfg now categories d store = some (resp, store'))
    (hlook : lookupStore store' resp.captcha_id = some r) :
    (∀ i ∈ r.correct_ids, ∃ e ∈ resp.images,
      e.id = i ∧ entryFromCategory d.target_category e) ∧
    r.correct_ids.card = d.target_files.length := by
  obtain ⟨hcid, hsc, himg, hst⟩ := api_captcha_some cfg now categories d store store' resp hiss
  have hr := api_captcha_record cfg now categories d store store' resp r hiss hlook
  obtain ⟨h1, h2, h3, h4, h5, h6, h7, h8, h9, h10⟩ := hd
  constructor
  · intro i hi
    rw [hr, List.mem_toFinset] at hi
    obtain ⟨e, he, hid, hcat⟩ := mem_zipWith_target d.target_category d.target_files
      (fillChosen categories d) d.image_ids i hi
    refine ⟨e, ?_, hid, hcat⟩
    rw [himg]
    exact ((hsh _).mem_iff).mpr he
  · rw [hr,
      List.toFinset_card_of_nodup (List.Nodup.sublist (List.take_sublist _ _) h9),
      List.length_take]
    exact inf_eq_left.mpr (by rw [h10]; exact Nat.le_add_right _ _)

/-- Witness for the amended C4: in the concrete two-category issuance both correct
ids are carried by target-category grid entries, and the correct set has as many
members as the drawn sample. -/
theorem claim_C4_witness :
    drawsValid exCats exDraws ∧
    ((∀ i ∈ (⟨["i1", "i2"].toFinset, "a1b2c3d4e5f60718293a4b5c6d7e8f90", 5⟩ :
          StoreRecord).correct_ids,
        ∃ e ∈ (issuedRespAt 5).images,
          e.id = i ∧ entryFromCategory exDraws.target_category e) ∧
      (⟨["i1", "i2"].toFinset, "a1b2c3d4e5f60718293a4b5c6d7e8f90", 5⟩ :
          StoreRecord).correct_ids.card = exDraws.target_files.length) := by
  refine ⟨by decide, ?_⟩
  exact claim_C4_amended ⟨5, 180⟩ 1000 exCats exDraws [] (issuedStoreAt 5) (issuedRespAt 5)
    ⟨["i1", "i2"].toFinset, "a1b2c3d4e5f60718293a4b5c6d7e8f90", 5⟩
    (by decide) (fun l => List.Perm.refl l) rfl (by decide)

end VICaptcha
